import Mathlib

/-!
Shallow embedding of the InsightPrep diagnostic scripts
(`check_db.py`, `debug_question.py`, `Golden/Golden 24/check_leadership_db.py`,
`Golden/Golden 24/search_question.py`).

The scripts open a sqlite question-bank database and print schema/sample
information.  We model:

* the database file as a `Bank`: each sqlite table is an `Option (List row)`
  (`none` = the table does not exist in this database file, as in a freshly
  created empty database);
* the filesystem as an association list `List (String × Bank)` from paths to
  database files;
* `sqlite3.connect`, which *creates an empty database file* when the path does
  not exist;
* each script's top-level module as a pure function returning a `RunResult`
  recording the console output, the unhandled exception (if any), the process
  exit code, whether a connection was opened and whether `conn.close()` was
  reached, and the final filesystem.

Python strings are sequences of Unicode code points; we model them as Lean
`String` (a list of `Char`), so Python's `s[:100]` is `take 100` on the
character list.  sqlite's `LIKE` is modelled by a matcher over code points
(`%` = any sequence, `_` = any single character, ASCII-case-insensitive, as
sqlite's default `LIKE` is).
-/

/-- One row of the `questions` table. The `subtopic` field is only meaningful
when the bank's schema has the optional `subtopic` column
(`Bank.hasSubtopic`). -/
structure Question where
  id : Nat
  question_type : String
  topic : String
  subtopic : String
  question_text : String
deriving Repr, DecidableEq

/-- One row of the `options` table. -/
structure OptionRow where
  id : Nat
  question_id : Nat
  option_text : String
  is_correct : Bool
deriving Repr, DecidableEq

/-- One row of the `match_pairs` table. -/
structure MatchPair where
  question_id : Nat
  left_text : String
  right_text : String
deriving Repr, DecidableEq

/-- A sqlite database file.  `schemaTables` models the
`SELECT sql FROM sqlite_master WHERE type='table'` result.  A table field of
`none` means the table does not exist (querying it raises
`sqlite3.OperationalError`).  `hasSubtopic` records whether the `questions`
table has the optional `subtopic` column. -/
structure Bank where
  schemaTables : List String
  hasSubtopic : Bool
  questions : Option (List Question)
  options : Option (List OptionRow)
  matchPairs : Option (List MatchPair)
deriving Repr, DecidableEq

/-- The database file `sqlite3.connect` creates at a non-existent path:
no tables at all. -/
def emptyBank : Bank :=
  { schemaTables := [], hasSubtopic := false,
    questions := none, options := none, matchPairs := none }

/-- Unhandled Python exceptions the scripts can die with. -/
inductive ScriptError where
  | operationalError (msg : String)
  | typeError (msg : String)
deriving Repr, DecidableEq

/-- `sqlite3.connect`: returns the bank at `path`; if the path does not
exist, sqlite creates an empty database file there. -/
def connectDb (fs : List (String × Bank)) (path : String) :
    Bank × List (String × Bank) :=
  match fs.lookup path with
  | some b => (b, fs)
  | none => (emptyBank, (path, emptyBank) :: fs)

/-- Python's `s[:n]`: the first `n` code points of `s` (never a partial
character). -/
def pySlice (s : String) (n : Nat) : String :=
  ⟨s.data.take n⟩

/-- ASCII lower-casing, as sqlite's default `LIKE` applies to `A`-`Z`. -/
def lowerAscii (c : Char) : Char :=
  if c.toNat ≥ 65 ∧ c.toNat ≤ 90 then Char.ofNat (c.toNat + 32) else c

/-- All suffixes of a list, longest first. -/
def tails : List Char → List (List Char)
  | [] => [[]]
  | c :: ts => (c :: ts) :: tails ts

/-- sqlite `LIKE` pattern matching over code points: `%` matches any
sequence, `_` any single character, other characters match
ASCII-case-insensitively. -/
def like : List Char → List Char → Bool
  | [], t => t.isEmpty
  | '%' :: ps, t => (tails t).any fun s => like ps s
  | _ :: _, [] => false
  | p :: ps, c :: ts => (p == '_' || lowerAscii p == lowerAscii c) && like ps ts

/-- `expr LIKE pattern` on strings. -/
def sqlLike (pattern text : String) : Bool :=
  like pattern.data text.data

/-- `SELECT DISTINCT <field> FROM questions`: the Inspector's
`EnumerateDistinct`.  Raises `sqlite3.OperationalError` when the table or the
column does not exist (the `subtopic` schema-evolution case). -/
def enumerateDistinct (b : Bank) (field : String) :
    Except ScriptError (List String) :=
  match b.questions with
  | none => .error (.operationalError "no such table: questions")
  | some qs =>
    if field = "question_type" then .ok (qs.map Question.question_type).dedup
    else if field = "topic" then .ok (qs.map Question.topic).dedup
    else if field = "subtopic" then
      if b.hasSubtopic then .ok (qs.map Question.subtopic).dedup
      else .error (.operationalError "no such column: subtopic")
    else .error (.operationalError ("no such column: " ++ field))

/-- `SELECT question_type, COUNT(*) FROM questions GROUP BY question_type`:
one `(type, count)` entry per distinct type. -/
def countByType (qs : List Question) : List (String × Nat) :=
  (qs.map Question.question_type).dedup.map
    fun t => (t, (qs.map Question.question_type).count t)

/-- `SELECT id, question_type, question_text FROM questions LIMIT n`, with the
script's `qtext[:100]` preview truncation applied: the Inspector's
`SampleQuestions`. -/
def sampleQuestions (qs : List Question) (limit : Nat) :
    List (Nat × String × String) :=
  (qs.take limit).map fun q => (q.id, q.question_type, pySlice q.question_text 100)

/-- Insert an option row into a list sorted by `id`, keeping it sorted. -/
def insertById (o : OptionRow) : List OptionRow → List OptionRow
  | [] => [o]
  | x :: xs => if o.id ≤ x.id then o :: x :: xs else x :: insertById o xs

/-- Sort option rows by `id` (sqlite's `ORDER BY id`). -/
def sortById : List OptionRow → List OptionRow
  | [] => []
  | x :: xs => insertById x (sortById xs)

/-- `SELECT ... FROM options WHERE question_id = qid ORDER BY id`, as rows. -/
def loadOptionRows (opts : List OptionRow) (qid : Nat) : List OptionRow :=
  sortById (opts.filter fun o => o.question_id == qid)

/-- The Inspector's `LoadOptionsFor`: `(option_text, is_correct)` pairs in
`ORDER BY id` (insertion) order. -/
def loadOptionsFor (opts : List OptionRow) (qid : Nat) : List (String × Bool) :=
  (loadOptionRows opts qid).map fun o => (o.option_text, o.is_correct)

/-- The Inspector's `LoadMatchPairsFor`:
`SELECT left_text, right_text FROM match_pairs WHERE question_id = qid`. -/
def loadMatchPairsFor (mps : List MatchPair) (qid : Nat) :
    List (String × String) :=
  (mps.filter fun m => m.question_id == qid).map fun m => (m.left_text, m.right_text)

/-- The Inspector's `SearchQuestions`:
`SELECT id, question_text FROM questions WHERE question_text LIKE pattern`. -/
def searchQuestions (qs : List Question) (pattern : String) :
    List (Nat × String) :=
  (qs.filter fun q => sqlLike pattern q.question_text).map
    fun q => (q.id, q.question_text)

/-- The observable outcome of running one script once. -/
structure RunResult where
  output : List String
  error : Option ScriptError
  exitCode : Nat
  connOpened : Bool
  connClosed : Bool
  finalFs : List (String × Bank)
deriving Repr, DecidableEq

/-- The console lines `check_db.py` prints for a bank whose `questions` table
exists, in the script's section order: schema, question types, count by type,
topics, subtopics (with the `try/except sqlite3.OperationalError` around the
`subtopic` query), sample questions. -/
def checkDbReport (b : Bank) (qs : List Question) : List String :=
  ("=== DATABASE SCHEMA ===" :: b.schemaTables)
  ++ ("=== QUESTION TYPES ===" ::
      (qs.map Question.question_type).dedup.map (fun t => "- " ++ t))
  ++ ("=== QUESTION COUNT BY TYPE ===" ::
      (countByType qs).map (fun p => p.1 ++ ": " ++ toString p.2 ++ " questions"))
  ++ ("=== TOPICS ===" ::
      (qs.map Question.topic).dedup.map (fun t => "- " ++ t))
  ++ ("=== SUBTOPICS ===" ::
      (match enumerateDistinct b "subtopic" with
       | .ok vs => vs.map (fun s => "- " ++ s)
       | .error _ => ["No subtopic column found"]))
  ++ ("=== SAMPLE QUESTIONS ===" ::
      (sampleQuestions qs 3).map
        (fun e => "ID " ++ toString e.1 ++ " (" ++ e.2.1 ++ "): " ++ e.2.2 ++ "..."))

/-- The `check_db.py` module: `if os.path.exists(db_path)` guards the whole
run; the `else` branch only prints `Database not found at: <path>`.  On the
happy path the connection is opened, the report printed and `conn.close()`
reached.  If the `questions` table is missing, the first
`SELECT DISTINCT question_type` raises `sqlite3.OperationalError` outside any
`try`, so the script dies before `conn.close()` (exit code 1). -/
def check_db (fs : List (String × Bank)) (path : String) : RunResult :=
  match fs.lookup path with
  | none =>
    { output := ["Database not found at: " ++ path], error := none,
      exitCode := 0, connOpened := false, connClosed := false, finalFs := fs }
  | some b =>
    match b.questions with
    | none =>
      { output := "=== DATABASE SCHEMA ===" :: b.schemaTables ++
          ["=== QUESTION TYPES ==="],
        error := some (.operationalError "no such table: questions"),
        exitCode := 1, connOpened := true, connClosed := false, finalFs := fs }
    | some qs =>
      { output := checkDbReport b qs, error := none, exitCode := 0,
        connOpened := true, connClosed := true, finalFs := fs }

/-- The `debug_question.py` module: connects with *no* existence check
(creating an empty database file at a missing path), selects the row with
`id = 1` from `questions`, builds `dict(zip(columns, question))` — which
raises `TypeError` when `fetchone()` returned `None` — then prints the
options and match pairs for question 1 and closes.  `conn.close()` is the
last statement, with no `try/finally`, so any exception skips it. -/
def debug_question (fs : List (String × Bank)) (path : String) : RunResult :=
  let c := connectDb fs path
  match c.1.questions with
  | none =>
    { output := ["=== FIRST QUESTION DATA ==="],
      error := some (.operationalError "no such table: questions"),
      exitCode := 1, connOpened := true, connClosed := false, finalFs := c.2 }
  | some qs =>
    match qs.find? (fun q => q.id == 1) with
    | none =>
      { output := ["=== FIRST QUESTION DATA ==="],
        error := some (.typeError "zip argument #2 must support iteration"),
        exitCode := 1, connOpened := true, connClosed := false, finalFs := c.2 }
    | some q =>
      match c.1.options with
      | none =>
        { output := ["=== FIRST QUESTION DATA ===",
            "Question data: " ++ reprStr q, "=== OPTIONS FOR QUESTION 1 ==="],
          error := some (.operationalError "no such table: options"),
          exitCode := 1, connOpened := true, connClosed := false, finalFs := c.2 }
      | some opts =>
        match c.1.matchPairs with
        | none =>
          { output := ["=== FIRST QUESTION DATA ===",
              "Question data: " ++ reprStr q, "=== OPTIONS FOR QUESTION 1 ===",
              "Options: " ++ reprStr (loadOptionsFor opts 1),
              "=== MATCH PAIRS FOR QUESTION 1 ==="],
            error := some (.operationalError "no such table: match_pairs"),
            exitCode := 1, connOpened := true, connClosed := false, finalFs := c.2 }
        | some mps =>
          { output := ["=== FIRST QUESTION DATA ===",
              "Question data: " ++ reprStr q, "=== OPTIONS FOR QUESTION 1 ===",
              "Options: " ++ reprStr (loadOptionsFor opts 1),
              "=== MATCH PAIRS FOR QUESTION 1 ===",
              "Match pairs: " ++ reprStr (loadMatchPairsFor mps 1)],
            error := none, exitCode := 0, connOpened := true,
            connClosed := true, finalFs := c.2 }

/-- The two hardcoded `LIKE` patterns of `search_question.py`. -/
def searchPattern1 : String := "%professional learning communities%"

def searchPattern2 : String := "%strengthens professional%"

/-- The per-hit lines `search_question.py` prints: the id/text line followed
by one marker line per option of that question. -/
def searchHitLines (opts : List OptionRow) (q : Question) : List String :=
  ("ID " ++ toString q.id ++ ": " ++ q.question_text) ::
    (loadOptionsFor opts q.id).map
      (fun o => "  " ++ (if o.2 then "✓" else " ") ++ " " ++ o.1)

/-- The `search_question.py` module: connects with *no* existence check
(creating an empty database file at a missing path), selects questions whose
text matches either hardcoded `LIKE` pattern, and for each hit queries its
options.  With no hits the loop body never runs, so the `options` table is
never touched.  `conn.close()` is the last statement, with no `try/finally`. -/
def search_question (fs : List (String × Bank)) (path : String) : RunResult :=
  let c := connectDb fs path
  match c.1.questions with
  | none =>
    { output := [], error := some (.operationalError "no such table: questions"),
      exitCode := 1, connOpened := true, connClosed := false, finalFs := c.2 }
  | some qs =>
    let hits := qs.filter fun q =>
      sqlLike searchPattern1 q.question_text || sqlLike searchPattern2 q.question_text
    match hits, c.1.options with
    | [], _ =>
      { output := [], error := none, exitCode := 0,
        connOpened := true, connClosed := true, finalFs := c.2 }
    | _ :: _, none =>
      { output := [], error := some (.operationalError "no such table: options"),
        exitCode := 1, connOpened := true, connClosed := false, finalFs := c.2 }
    | _ :: _, some opts =>
      { output := (hits.map (searchHitLines opts)).flatten,
        error := none, exitCode := 0,
        connOpened := true, connClosed := true, finalFs := c.2 }

/-! ### Helper lemmas -/

theorem sum_map_add {α : Type} (f g : α → Nat) (xs : List α) :
    (xs.map fun x => f x + g x).sum = (xs.map f).sum + (xs.map g).sum := by
  induction xs with
  | nil => rfl
  | cons x xs ih => simp only [List.map_cons, List.sum_cons, ih]; omega

theorem sum_indicator_eq_count (a : String) (xs : List String) :
    (xs.map fun t => if a == t then 1 else 0).sum = xs.count a := by
  induction xs with
  | nil => simp
  | cons x xs ih =>
    simp only [List.map_cons, List.sum_cons, ih, List.count_cons]
    by_cases h : a = x
    · subst h; simp; omega
    · have h1 : (a == x) = false := by simp [h]
      have h2 : (x == a) = false := by simp [Ne.symm h]
      simp [h1, h2]

theorem sum_map_count_dedup (l : List String) :
    (l.dedup.map fun t => l.count t).sum = l.length := by
  induction l with
  | nil => simp
  | cons a l ih =>
    have hcnt : ∀ xs : List String, (xs.map fun t => (a :: l).count t).sum
        = (xs.map fun t => l.count t).sum + xs.count a := by
      intro xs
      calc (xs.map fun t => (a :: l).count t).sum
          = (xs.map fun t => l.count t + if a == t then 1 else 0).sum := by
            simp only [List.count_cons]
        _ = (xs.map fun t => l.count t).sum
              + (xs.map fun t => if a == t then 1 else 0).sum :=
            sum_map_add _ _ _
        _ = (xs.map fun t => l.count t).sum + xs.count a := by
            rw [sum_indicator_eq_count]
    by_cases h : a ∈ l
    · rw [List.dedup_cons_of_mem h, hcnt, ih]
      have h1 : l.dedup.count a = 1 := by rw [List.count_dedup]; simp [h]
      rw [h1]
      simp
    · rw [List.dedup_cons_of_not_mem h]
      simp only [List.map_cons, List.sum_cons, hcnt, ih]
      have h0 : l.dedup.count a = 0 := by rw [List.count_dedup]; simp [h]
      have hl0 : l.count a = 0 := List.count_eq_zero.mpr h
      have hc : (a :: l).count a = l.count a + 1 := by simp [List.count_cons]
      rw [h0, hc, hl0]
      simp [Nat.add_comm]

theorem mem_insertById {x o : OptionRow} {l : List OptionRow} :
    x ∈ insertById o l ↔ x = o ∨ x ∈ l := by
  induction l with
  | nil => simp [insertById]
  | cons y ys ih =>
    simp only [insertById]
    split <;> (simp only [List.mem_cons, ih]; try tauto)

theorem insertById_sorted {o : OptionRow} {l : List OptionRow}
    (h : l.Pairwise fun a b => a.id ≤ b.id) :
    (insertById o l).Pairwise fun a b => a.id ≤ b.id := by
  induction l with
  | nil => simp [insertById]
  | cons x xs ih =>
    rw [List.pairwise_cons] at h
    obtain ⟨hx, hxs⟩ := h
    simp only [insertById]
    split
    · rename_i hle
      refine List.Pairwise.cons ?_ (List.Pairwise.cons hx hxs)
      intro y hy
      rcases List.mem_cons.mp hy with rfl | hy'
      · exact hle
      · exact le_trans hle (hx y hy')
    · rename_i hgt
      push_neg at hgt
      refine List.Pairwise.cons ?_ (ih hxs)
      intro y hy
      rcases mem_insertById.mp hy with rfl | hy'
      · exact le_of_lt hgt
      · exact hx y hy'

theorem sortById_sorted (l : List OptionRow) :
    (sortById l).Pairwise fun a b => a.id ≤ b.id := by
  induction l with
  | nil => simp [sortById]
  | cons x xs ih =>
    simp only [sortById]
    exact insertById_sorted ih

theorem sortById_eq_self {l : List OptionRow}
    (h : l.Pairwise fun a b => a.id ≤ b.id) :
    sortById l = l := by
  induction l with
  | nil => rfl
  | cons x xs ih =>
    rw [List.pairwise_cons] at h
    obtain ⟨hx, hxs⟩ := h
    simp only [sortById, ih hxs]
    cases xs with
    | nil => rfl
    | cons y ys =>
      simp only [insertById]
      rw [if_pos (hx y (List.mem_cons_self y ys))]

/-! ### Concrete banks used as test inputs -/

/-- The one question of the spec's end-to-end scenario. -/
def leadershipQuestions : List Question :=
  [{ id := 1, question_type := "MCQ", topic := "Leadership", subtopic := "",
     question_text := "What is leadership?" }]

/-- The two options of the spec's end-to-end scenario, in insertion order. -/
def leadershipOptions : List OptionRow :=
  [{ id := 1, question_id := 1, option_text := "Trait-based", is_correct := false },
   { id := 2, question_id := 1, option_text := "Situational", is_correct := true }]

/-- The spec's end-to-end scenario bank. -/
def leadershipBank : Bank :=
  { schemaTables := ["CREATE TABLE questions (id INTEGER PRIMARY KEY)"],
    hasSubtopic := false,
    questions := some leadershipQuestions,
    options := some leadershipOptions,
    matchPairs := some [] }

/-- A bank whose tables all exist but hold no rows (in particular no question
with id 1), and whose `questions` table lacks the `subtopic` column. -/
def emptyQuestionsBank : Bank :=
  { schemaTables := ["CREATE TABLE questions (id INTEGER PRIMARY KEY)"],
    hasSubtopic := false,
    questions := some [], options := some [], matchPairs := some [] }

/-! ### Claims -/

/-- C1: for every path that does not resolve to an existing file, `check_db.py`
prints the `Database not found at: <path>` message, raises no low-level I/O
fault, opens no connection, changes nothing on disk, and exits with code 0. -/
theorem c1_open_missing_path_reports_not_found
    (fs : List (String × Bank)) (path : String) (h : fs.lookup path = none) :
    check_db fs path =
      { output := ["Database not found at: " ++ path], error := none,
        exitCode := 0, connOpened := false, connClosed := false,
        finalFs := fs } := by
  unfold check_db
  rw [h]

/-- Witness for C1 at the concrete missing path `Testing.db`. -/
theorem c1_open_missing_path_reports_not_found_witness :
    (([] : List (String × Bank)).lookup "Testing.db" = none) ∧
    check_db [] "Testing.db" =
      { output := ["Database not found at: " ++ "Testing.db"], error := none,
        exitCode := 0, connOpened := false, connClosed := false,
        finalFs := [] } :=
  ⟨rfl, c1_open_missing_path_reports_not_found [] "Testing.db" rfl⟩

/-- C4: for every contents of the `questions` table, the per-type counts
produced by the `GROUP BY question_type` query sum to the total number of
rows: no row is double-counted and none is dropped. -/
theorem c4_countByType_totals_sum_to_row_count (qs : List Question) :
    ((countByType qs).map Prod.snd).sum = qs.length := by
  unfold countByType
  rw [List.map_map]
  have h : (Prod.snd ∘ fun t => (t, (qs.map Question.question_type).count t))
      = fun t => (qs.map Question.question_type).count t := rfl
  rw [h, sum_map_count_dedup, List.length_map]

/-- C6: sampling with `LIMIT 3` returns at most 3 entries, fewer only when the
bank holds fewer than 3 questions, and each preview is the first ≤100
code points of the question text — a whole-character prefix, so no partial
multi-byte corruption. -/
theorem c6_sampleQuestions_limit_and_truncation (qs : List Question) :
    (sampleQuestions qs 3).length ≤ 3 ∧
    ((sampleQuestions qs 3).length < 3 → qs.length < 3) ∧
    ∀ e ∈ sampleQuestions qs 3, ∃ q, q ∈ qs ∧
      e.1 = q.id ∧ e.2.1 = q.question_type ∧
      e.2.2.data = q.question_text.data.take 100 ∧
      e.2.2.data.length ≤ 100 ∧
      ∃ rest, q.question_text.data = e.2.2.data ++ rest := by
  refine ⟨?_, ?_, ?_⟩
  · unfold sampleQuestions
    rw [List.length_map, List.length_take]
    omega
  · unfold sampleQuestions
    rw [List.length_map, List.length_take]
    omega
  · intro e he
    unfold sampleQuestions at he
    obtain ⟨q, hq, rfl⟩ := List.mem_map.mp he
    refine ⟨q, List.mem_of_mem_take hq, rfl, rfl, rfl, ?_, ?_⟩
    · show (q.question_text.data.take 100).length ≤ 100
      rw [List.length_take]
      omega
    · exact ⟨q.question_text.data.drop 100, (List.take_append_drop 100 _).symm⟩

/-- Witness for C6 on a one-question bank: the sample is shorter than 3 only
because the bank is, and the sampled entry is a whole-character prefix of the
question text. -/
theorem c6_sampleQuestions_limit_and_truncation_witness :
    (leadershipQuestions.length < 3) ∧
    (∃ q, q ∈ leadershipQuestions ∧
      (1 : Nat) = q.id ∧ ("MCQ" : String) = q.question_type ∧
      ("What is leadership?" : String).data = q.question_text.data.take 100 ∧
      ("What is leadership?" : String).data.length ≤ 100 ∧
      ∃ rest, q.question_text.data = ("What is leadership?" : String).data ++ rest) :=
  ⟨(c6_sampleQuestions_limit_and_truncation leadershipQuestions).2.1 (by decide),
   (c6_sampleQuestions_limit_and_truncation leadershipQuestions).2.2
     (1, "MCQ", "What is leadership?") (by decide)⟩

/-- C8: on the spec's end-to-end bank, `SampleQuestions(limit=1)` returns
`[(1, "MCQ", "What is leadership?")]` and `LoadOptionsFor(1)` returns
`[("Trait-based", false), ("Situational", true)]` in insertion order; in
general the `ORDER BY id` query returns option rows sorted by `id`, and when
the stored rows are already in `id` (creation) order it returns exactly the
matching rows in their stored order. -/
theorem c8_end_to_end_scenario_and_insertion_order :
    sampleQuestions leadershipQuestions 1 = [(1, "MCQ", "What is leadership?")] ∧
    loadOptionsFor leadershipOptions 1 =
      [("Trait-based", false), ("Situational", true)] ∧
    (∀ (opts : List OptionRow) (qid : Nat),
      (loadOptionRows opts qid).Pairwise fun a b => a.id ≤ b.id) ∧
    (∀ (opts : List OptionRow) (qid : Nat),
      (opts.Pairwise fun a b => a.id ≤ b.id) →
      loadOptionRows opts qid = opts.filter fun o => o.question_id == qid) := by
  refine ⟨by decide, by decide, ?_, ?_⟩
  · intro opts qid
    exact sortById_sorted _
  · intro opts qid h
    unfold loadOptionRows
    exact sortById_eq_self (h.filter _)

/-- Witness for C8: on the scenario bank's stored rows (which are in `id`
order) the `ORDER BY id` query returns exactly the filtered rows in stored
order. -/
theorem c8_end_to_end_scenario_and_insertion_order_witness :
    loadOptionRows leadershipOptions 1 =
      leadershipOptions.filter fun o => o.question_id == 1 :=
  c8_end_to_end_scenario_and_insertion_order.2.2.2 leadershipOptions 1 (by decide)

/-- C9: every entry `SearchQuestions` returns is the `(id, text)` of a stored
question whose text matches the `LIKE` pattern, and a pattern matching no
question text yields the empty list as a success, not an error. -/
theorem c9_searchQuestions_matches_and_zero_is_success
    (qs : List Question) (pattern : String) :
    (∀ e ∈ searchQuestions qs pattern, ∃ q, q ∈ qs ∧
      sqlLike pattern q.question_text = true ∧ e = (q.id, q.question_text)) ∧
    ((∀ q ∈ qs, sqlLike pattern q.question_text = false) →
      searchQuestions qs pattern = []) := by
  constructor
  · intro e he
    obtain ⟨q, hq, rfl⟩ := List.mem_map.mp he
    obtain ⟨hmem, hmatch⟩ := List.mem_filter.mp hq
    exact ⟨q, hmem, hmatch, rfl⟩
  · intro hall
    unfold searchQuestions
    have h : (qs.filter fun q => sqlLike pattern q.question_text) = [] :=
      List.filter_eq_nil_iff.mpr (fun q hq => by simp [hall q hq])
    rw [h]
    rfl

/-- Witness for C9 on the scenario bank: `%leadership%` finds question 1, and
the non-matching pattern `%zzz%` yields `[]`. -/
theorem c9_searchQuestions_matches_and_zero_is_success_witness :
    (∃ q, q ∈ leadershipQuestions ∧
      sqlLike "%leadership%" q.question_text = true ∧
      ((1 : Nat), ("What is leadership?" : String)) = (q.id, q.question_text)) ∧
    searchQuestions leadershipQuestions "%zzz%" = [] :=
  ⟨(c9_searchQuestions_matches_and_zero_is_success leadershipQuestions "%leadership%").1
      (1, "What is leadership?") (by decide),
   (c9_searchQuestions_matches_and_zero_is_success leadershipQuestions "%zzz%").2
      (by decide)⟩

/-- A matching-style bank: question 1 exists, the `options` table exists but
holds no row for it, and a match pair does. -/
def matchingBank : Bank :=
  { schemaTables := ["CREATE TABLE questions (id INTEGER PRIMARY KEY)"],
    hasSubtopic := false,
    questions := some [{ id := 1, question_type := "MATCH", topic := "Leadership",
                         subtopic := "", question_text := "Match the theories" }],
    options := some [],
    matchPairs := some [{ question_id := 1, left_text := "Trait",
                          right_text := "Stable dispositions" }] }

/-- Counterexample to C2: running `debug_question.py` on a database file with
no `questions` table opens the connection, dies with a propagated
`sqlite3.OperationalError`, and never reaches `conn.close()` — there is no
`finally`/deferred-close construct. -/
theorem c2_counterexample_fatal_error_skips_close :
    (debug_question [("Testing.db", emptyBank)] "Testing.db").connOpened = true ∧
    (debug_question [("Testing.db", emptyBank)] "Testing.db").error =
      some (.operationalError "no such table: questions") ∧
    (debug_question [("Testing.db", emptyBank)] "Testing.db").connClosed = false := by
  decide

/-- C2 as amended: in every script the connection is closed exactly on runs
that finish without a propagated fatal error (on `check_db.py`'s not-found
branch no connection is ever acquired); when a fatal error propagates,
`conn.close()` is skipped, since no script uses a `finally`/deferred-close
construct. -/
theorem c2_amended_close_reached_iff_no_fatal_error
    (fs : List (String × Bank)) (path : String) :
    ((check_db fs path).connClosed
      = ((check_db fs path).error.isNone && (check_db fs path).connOpened)) ∧
    ((debug_question fs path).connClosed
      = ((debug_question fs path).error.isNone && (debug_question fs path).connOpened)) ∧
    ((search_question fs path).connClosed
      = ((search_question fs path).error.isNone && (search_question fs path).connOpened)) := by
  refine ⟨?_, ?_, ?_⟩
  · unfold check_db
    repeat' split
    all_goals rfl
  · simp only [debug_question]
    repeat' split
    all_goals rfl
  · simp only [search_question]
    repeat' split
    all_goals rfl

/-- Counterexample to C3: `search_question.py` connects without an existence
check, and `sqlite3.connect` on a missing path creates an empty database
file — opening a path with no existing data source does create the source. -/
theorem c3_counterexample_connect_creates_missing_source :
    (([] : List (String × Bank)).lookup "EdLEAP.db" = none) ∧
    (search_question [] "EdLEAP.db").finalFs.lookup "EdLEAP.db"
      = some emptyBank := by
  decide

/-- C3 as amended: no script ever modifies an existing data source
(`check_db.py` leaves the filesystem untouched on every path, and every bank
present before a `debug_question.py`/`search_question.py` run is unchanged
after it); however, those two scripts connect without an existence check, so
at a missing path sqlite creates an empty database file. -/
theorem c3_amended_no_writes_to_existing_sources
    (fs : List (String × Bank)) (path : String) :
    ((check_db fs path).finalFs = fs) ∧
    (∀ p b, fs.lookup p = some b →
      (debug_question fs path).finalFs.lookup p = some b ∧
      (search_question fs path).finalFs.lookup p = some b) := by
  have hdf : (debug_question fs path).finalFs = (connectDb fs path).2 := by
    simp only [debug_question]
    repeat' split
    all_goals rfl
  have hsf : (search_question fs path).finalFs = (connectDb fs path).2 := by
    simp only [search_question]
    repeat' split
    all_goals rfl
  refine ⟨?_, ?_⟩
  · unfold check_db
    repeat' split
    all_goals rfl
  · intro p b hp
    rw [hdf, hsf]
    unfold connectDb
    cases hpath : fs.lookup path with
    | some b' => simp [hp]
    | none =>
      have hne : (p == path) = false := by
        by_cases h : p = path
        · subst h
          rw [hp] at hpath
          exact absurd hpath (by simp)
        · simp [h]
      constructor <;>
        simp [List.lookup, hne, hp]

/-- Witness for the amended C3: a bank already on disk is still found,
unchanged, after `debug_question.py` runs against a different path. -/
theorem c3_amended_no_writes_to_existing_sources_witness :
    (debug_question [("Bank.db", leadershipBank)] "Other.db").finalFs.lookup "Bank.db"
      = some leadershipBank :=
  ((c3_amended_no_writes_to_existing_sources [("Bank.db", leadershipBank)] "Other.db").2
    "Bank.db" leadershipBank (by decide)).1

/-- C5: on a bank whose `questions` table lacks the `subtopic` column, the
`SELECT DISTINCT subtopic` query yields the field-not-found error condition
(not a success with an empty set), `check_db.py` catches it and prints
`No subtopic column found`, and the rest of the report (through the sample
questions section) still completes with exit code 0. -/
theorem c5_missing_subtopic_column_recovered
    (fs : List (String × Bank)) (path : String) (b : Bank) (qs : List Question)
    (hb : fs.lookup path = some b) (hq : b.questions = some qs)
    (hsub : b.hasSubtopic = false) :
    enumerateDistinct b "subtopic"
      = .error (.operationalError "no such column: subtopic") ∧
    (check_db fs path).error = none ∧
    (check_db fs path).exitCode = 0 ∧
    "No subtopic column found" ∈ (check_db fs path).output ∧
    "=== SAMPLE QUESTIONS ===" ∈ (check_db fs path).output := by
  have hed : enumerateDistinct b "subtopic"
      = .error (.operationalError "no such column: subtopic") := by
    unfold enumerateDistinct
    rw [hq]
    dsimp only
    rw [if_neg (by decide), if_neg (by decide), if_pos rfl, hsub]
    rfl
  have hcout : check_db fs path =
      { output := checkDbReport b qs, error := none, exitCode := 0,
        connOpened := true, connClosed := true, finalFs := fs } := by
    simp only [check_db, hb, hq]
  refine ⟨hed, ?_, ?_, ?_, ?_⟩
  · rw [hcout]
  · rw [hcout]
  · rw [hcout]
    unfold checkDbReport
    rw [hed]
    simp
  · rw [hcout]
    unfold checkDbReport
    rw [hed]
    simp

/-- Witness for C5 on a bank without the `subtopic` column: the recovered
report line appears and the run succeeds. -/
theorem c5_missing_subtopic_column_recovered_witness :
    enumerateDistinct emptyQuestionsBank "subtopic"
      = .error (.operationalError "no such column: subtopic") ∧
    (check_db [("Testing.db", emptyQuestionsBank)] "Testing.db").error = none ∧
    "No subtopic column found"
      ∈ (check_db [("Testing.db", emptyQuestionsBank)] "Testing.db").output := by
  have h := c5_missing_subtopic_column_recovered
    [("Testing.db", emptyQuestionsBank)] "Testing.db" emptyQuestionsBank []
    (by decide) rfl rfl
  exact ⟨h.1, h.2.1, h.2.2.2.1⟩

/-- C7: when no row of the `options` table references a question id,
`LoadOptionsFor` returns the empty sequence — and `debug_question.py`
completes without error on such a bank (question 1 present, no child
options), rather than treating the absence as an error. -/
theorem c7_loadOptionsFor_no_child_rows_empty_not_error
    (opts : List OptionRow) (qid : Nat)
    (hno : ∀ o ∈ opts, o.question_id ≠ qid) :
    loadOptionsFor opts qid = [] ∧
    ∀ (fs : List (String × Bank)) (path : String) (b : Bank)
      (qs : List Question) (mps : List MatchPair),
      fs.lookup path = some b → b.questions = some qs →
      (∃ q ∈ qs, q.id = 1) → b.options = some opts →
      b.matchPairs = some mps →
      (debug_question fs path).error = none ∧
      (debug_question fs path).exitCode = 0 := by
  constructor
  · unfold loadOptionsFor loadOptionRows
    have h : (opts.filter fun o => o.question_id == qid) = [] :=
      List.filter_eq_nil_iff.mpr (fun o ho => by simp [hno o ho])
    rw [h]
    rfl
  · intro fs path b qs mps hb hq hex ho hm
    have hc : connectDb fs path = (b, fs) := by unfold connectDb; rw [hb]
    have hfind : (qs.find? (fun q => q.id == 1)).isSome := by
      rw [List.find?_isSome]
      obtain ⟨q, hqm, hq1⟩ := hex
      exact ⟨q, hqm, by simp [hq1]⟩
    obtain ⟨q, hfq⟩ := Option.isSome_iff_exists.mp hfind
    constructor
    · simp only [debug_question, hc, hq, hfq, ho, hm]
    · simp only [debug_question, hc, hq, hfq, ho, hm]

/-- Witness for C7 on the matching-style bank: no options belong to question
1, `LoadOptionsFor` yields `[]`, and the script still completes. -/
theorem c7_loadOptionsFor_no_child_rows_empty_not_error_witness :
    loadOptionsFor [] 1 = [] ∧
    (debug_question [("Matching.db", matchingBank)] "Matching.db").error = none := by
  have h := c7_loadOptionsFor_no_child_rows_empty_not_error [] 1 (by simp)
  refine ⟨h.1, ?_⟩
  refine (h.2 [("Matching.db", matchingBank)] "Matching.db" matchingBank
    _ _ (by decide) rfl ?_ rfl rfl).1
  exact ⟨{ id := 1, question_type := "MATCH", topic := "Leadership",
           subtopic := "", question_text := "Match the theories" },
         by decide, rfl⟩

/-- C10: if the bank holds no question with id 1, `debug_question.py` dies
with an unhandled `TypeError` from `dict(zip(columns, None))` (exit code 1,
connection not closed) — while with question 1 present the run completes even
though child rows may be absent, absent child rows being reported as empty. -/
theorem c10_missing_first_question_is_fatal
    (fs : List (String × Bank)) (path : String) (b : Bank) (qs : List Question)
    (hb : fs.lookup path = some b) (hq : b.questions = some qs) :
    ((∀ q ∈ qs, q.id ≠ 1) →
      (debug_question fs path).error
        = some (.typeError "zip argument #2 must support iteration") ∧
      (debug_question fs path).exitCode = 1 ∧
      (debug_question fs path).connClosed = false) ∧
    (∀ (opts : List OptionRow) (mps : List MatchPair),
      b.options = some opts → b.matchPairs = some mps →
      (∃ q ∈ qs, q.id = 1) →
      (debug_question fs path).error = none ∧
      (debug_question fs path).exitCode = 0) := by
  have hc : connectDb fs path = (b, fs) := by unfold connectDb; rw [hb]
  constructor
  · intro hno
    have hfind : qs.find? (fun q => q.id == 1) = none :=
      List.find?_eq_none.mpr (fun q hqmem => by simp [hno q hqmem])
    refine ⟨?_, ?_, ?_⟩ <;> simp only [debug_question, hc, hq, hfind]
  · intro opts mps ho hm hex
    have hfind : (qs.find? (fun q => q.id == 1)).isSome := by
      rw [List.find?_isSome]
      obtain ⟨q, hqm, hq1⟩ := hex
      exact ⟨q, hqm, by simp [hq1]⟩
    obtain ⟨q, hfq⟩ := Option.isSome_iff_exists.mp hfind
    constructor <;> simp only [debug_question, hc, hq, hfq, ho, hm]

/-- Witness for C10: on the empty bank the script dies with the `TypeError`;
on the scenario bank (question 1 present) it completes. -/
theorem c10_missing_first_question_is_fatal_witness :
    ((debug_question [("Testing.db", emptyQuestionsBank)] "Testing.db").error
      = some (.typeError "zip argument #2 must support iteration")) ∧
    ((debug_question [("Leadership.db", leadershipBank)] "Leadership.db").error
      = none) := by
  refine ⟨?_, ?_⟩
  · exact ((c10_missing_first_question_is_fatal [("Testing.db", emptyQuestionsBank)]
      "Testing.db" emptyQuestionsBank [] (by decide) rfl).1 (by simp)).1
  · refine ((c10_missing_first_question_is_fatal [("Leadership.db", leadershipBank)]
      "Leadership.db" leadershipBank leadershipQuestions (by decide) rfl).2
      leadershipOptions [] rfl rfl ?_).1
    exact ⟨{ id := 1, question_type := "MCQ", topic := "Leadership",
             subtopic := "", question_text := "What is leadership?" },
           by decide, rfl⟩
